import Mathlib

/-!
Shallow embedding of the world-hex-miner server core (src/unnamed/part_000):
the zone classification engine, the coastal safety buffer, and the mining
ownership engine. External collaborators (the H3 grid library, the Overpass
map-data service, timestamps) are passed in as explicit function parameters,
following the specification, which treats Grid Addressing and the map-data
service as external contracts.
-/

namespace WorldHexMiner

/-- Zone categories (the ZoneType union in the server). -/
inductive ZoneType where
  | SEA
  | MAIN_ROAD
  | URBAN
  | INTERURBAN
  | MILITARY
  | HOSPITAL
  | CLIFF
  | COAST
  | NATURE_RESERVE
  | RIVER
  | PRISON
  | GOVERNMENT
  deriving DecidableEq, Repr

/-- OSM tags of one returned element (Record of string to string in the
server; we keep exactly the keys the classifier reads). A field is none when
the key is absent. -/
structure Tags where
  highway : Option String := none
  landuse : Option String := none
  military : Option String := none
  amenity : Option String := none
  building : Option String := none
  natural : Option String := none
  leisure : Option String := none
  place : Option String := none
  water : Option String := none
  deriving DecidableEq, Repr

/-- JavaScript truthiness of a possibly-missing string tag value: present and
non-empty. -/
def truthy : Option String → Bool
  | none => false
  | some s => s != ""

/-- The roadPriority record used to keep the strongest road class seen. -/
def roadPriority (c : String) : Nat :=
  if c = "motorway" then 4
  else if c = "trunk" then 3
  else if c = "primary" then 2
  else if c = "secondary" then 1
  else 0

/-- The mainRoads set: only motorway and trunk force MAIN_ROAD. -/
def isMainRoadClass (c : String) : Bool :=
  c == "motorway" || c == "trunk"

def isMilitaryTag (t : Tags) : Bool :=
  t.landuse == some "military" || truthy t.military

def isHospitalTag (t : Tags) : Bool :=
  t.amenity == some "hospital"

def isPrisonOrGovernmentTag (t : Tags) : Bool :=
  t.amenity == some "prison" || t.building == some "government"

def isSeaTag (t : Tags) : Bool :=
  t.natural == some "sea" || t.natural == some "water" ||
    t.place == some "sea" || truthy t.water

def isCoastTag (t : Tags) : Bool :=
  t.natural == some "coastline" || t.natural == some "beach" ||
    t.leisure == some "beach"

def isCliffTag (t : Tags) : Bool :=
  t.natural == some "cliff"

def isNatureTag (t : Tags) : Bool :=
  t.leisure == some "park" || t.landuse == some "forest" ||
    t.natural == some "wood"

def isUrbanTag (t : Tags) : Bool :=
  truthy t.building || t.landuse == some "residential" ||
    t.landuse == some "commercial" || t.landuse == some "industrial" ||
    t.place == some "city" || t.place == some "town" ||
    t.place == some "village"

/-- A road element, as tracked by the scan loop: any highway tag sets the
road-presence flag; motorway or trunk also set hasMainRoad. -/
def isMainRoadTag (t : Tags) : Bool :=
  truthy t.highway && isMainRoadClass (t.highway.getD "")

/-- The boolean flags the scan loop of either classifier accumulates. -/
structure Flags where
  hasMainRoad : Bool := false
  hasSea : Bool := false
  hasNature : Bool := false
  hasUrban : Bool := false
  hasMilitary : Bool := false
  hasHospital : Bool := false
  hasPrisonOrGovernment : Bool := false
  hasCoast : Bool := false
  hasCliff : Bool := false
  hasRoad : Bool := false
  roadClass : Option String := none
  deriving DecidableEq, Repr

def initFlags : Flags := {}

/-- The highway branch of the scan loop: set hasRoad, keep the strongest
roadClass seen so far, and set hasMainRoad for motorway or trunk. -/
def scanRoad (f : Flags) (t : Tags) : Flags :=
  if truthy t.highway then
    let hw := t.highway.getD ""
    let current := if truthy f.roadClass then roadPriority (f.roadClass.getD "") else 0
    { f with
        hasRoad := true,
        roadClass := if roadPriority hw > current then some hw else f.roadClass,
        hasMainRoad := f.hasMainRoad || isMainRoadClass hw }
  else f

/-- One iteration of the scan loop of inferZoneTypeFromOverpass (the area or
bbox variant): each tag condition that holds sets its flag. -/
def scanElementArea (f0 : Flags) (t : Tags) : Flags :=
  let f1 := { f0 with hasMilitary := f0.hasMilitary || isMilitaryTag t }
  let f2 := { f1 with hasHospital := f1.hasHospital || isHospitalTag t }
  let f3 := { f2 with hasPrisonOrGovernment := f2.hasPrisonOrGovernment || isPrisonOrGovernmentTag t }
  let f4 := scanRoad f3 t
  let f5 := { f4 with hasSea := f4.hasSea || isSeaTag t }
  let f6 := { f5 with hasCoast := f5.hasCoast || isCoastTag t }
  let f7 := { f6 with hasCliff := f6.hasCliff || isCliffTag t }
  let f8 := { f7 with hasNature := f7.hasNature || isNatureTag t }
  { f8 with hasUrban := f8.hasUrban || isUrbanTag t }

/-- One iteration of the scan loop of inferZoneTypeAtCentroid (the local
variant): identical to the area scan except that the coastline and cliff
conditions are absent. -/
def scanElementCentroid (f0 : Flags) (t : Tags) : Flags :=
  let f1 := { f0 with hasMilitary := f0.hasMilitary || isMilitaryTag t }
  let f2 := { f1 with hasHospital := f1.hasHospital || isHospitalTag t }
  let f3 := { f2 with hasPrisonOrGovernment := f2.hasPrisonOrGovernment || isPrisonOrGovernmentTag t }
  let f4 := scanRoad f3 t
  let f5 := { f4 with hasSea := f4.hasSea || isSeaTag t }
  let f6 := { f5 with hasNature := f5.hasNature || isNatureTag t }
  { f6 with hasUrban := f6.hasUrban || isUrbanTag t }

/-- The priority cascade of the area (bbox) classifier, exactly as the nested
conditionals at the end of inferZoneTypeFromOverpass resolve the flags. -/
def resolveArea (f : Flags) : ZoneType :=
  if f.hasMilitary || f.hasPrisonOrGovernment then
    if f.hasMilitary then .MILITARY else .PRISON
  else if f.hasHospital then .HOSPITAL
  else if f.hasMainRoad then .MAIN_ROAD
  else if f.hasCliff then .CLIFF
  else if f.hasCoast then .COAST
  else if f.hasUrban then .URBAN
  else if f.hasSea then .SEA
  else if f.hasNature then .NATURE_RESERVE
  else .INTERURBAN

/-- The priority cascade of the centroid (local) classifier, which omits the
cliff and coast checks and defaults to SEA. -/
def resolveCentroid (f : Flags) : ZoneType :=
  if f.hasMilitary || f.hasPrisonOrGovernment then
    if f.hasMilitary then .MILITARY else .PRISON
  else if f.hasHospital then .HOSPITAL
  else if f.hasMainRoad then .MAIN_ROAD
  else if f.hasUrban then .URBAN
  else if f.hasSea then .SEA
  else if f.hasNature then .NATURE_RESERVE
  else .SEA

/-- The priority order as the specification words it for the area variant:
a single first-match total order MILITARY/PRISON-or-GOVERNMENT, HOSPITAL,
MAIN_ROAD, CLIFF, COAST, URBAN, SEA, NATURE_RESERVE, default INTERURBAN.
This definition follows the words of the spec and is compared with
resolveArea, which follows the source. -/
def resolveAreaSpec (f : Flags) : ZoneType :=
  if f.hasMilitary then .MILITARY
  else if f.hasPrisonOrGovernment then .PRISON
  else if f.hasHospital then .HOSPITAL
  else if f.hasMainRoad then .MAIN_ROAD
  else if f.hasCliff then .CLIFF
  else if f.hasCoast then .COAST
  else if f.hasUrban then .URBAN
  else if f.hasSea then .SEA
  else if f.hasNature then .NATURE_RESERVE
  else .INTERURBAN

/-- The priority order as the specification words it for the local variant:
the same order with the CLIFF and COAST steps omitted and default SEA.
This definition follows the words of the spec and is compared with
resolveCentroid, which follows the source. -/
def resolveCentroidSpec (f : Flags) : ZoneType :=
  if f.hasMilitary then .MILITARY
  else if f.hasPrisonOrGovernment then .PRISON
  else if f.hasHospital then .HOSPITAL
  else if f.hasMainRoad then .MAIN_ROAD
  else if f.hasUrban then .URBAN
  else if f.hasSea then .SEA
  else if f.hasNature then .NATURE_RESERVE
  else .SEA

/-- Result of either classifier variant. -/
structure InferredZone where
  zoneType : ZoneType
  debug : List String
  hasRoad : Bool
  roadClass : Option String
  deriving DecidableEq, Repr

/-! ## Coastal safety buffer -/

/-- Ring radius used by markCoastAndBuffer when growing the persisted
coastal buffer set. -/
def COAST_BUFFER_K : Nat := 4

/-- Ring radius used by applyCoastBufferFromCache for read-time display
widening. -/
def DISPLAY_COAST_BUFFER_K : Nat := 3

/-- One step of adding a cell to a set-as-list: add only if absent, and
record in the flag whether anything was added (the changed flag of
markCoastAndBuffer). -/
def addIfAbsent (acc : List String × Bool) (idx : String) : List String × Bool :=
  if idx ∈ acc.1 then acc else (acc.1 ++ [idx], true)

/-- markCoastAndBuffer: union the disk of radius COAST_BUFFER_K around the
cell into the coastal buffer set; the returned flag records whether the set
changed, which is exactly when saveCoastBuffer is called. The grid disk
function of the external H3 library is a parameter. -/
def markCoastAndBuffer (gridDisk : String → Nat → List String)
    (h3Index : String) (buffer : List String) : List String × Bool :=
  (gridDisk h3Index COAST_BUFFER_K).foldl addIfAbsent (buffer, false)

/-! ## Classifier entry points -/

/-- inferZoneTypeFromOverpass after a successful Overpass response: scan the
elements once into flags, then resolve by the fixed priority cascade. On the
COAST branch the coastal buffer is grown (markCoastAndBuffer) before
returning; the returned pair carries the new buffer and whether it was
persisted. -/
def inferZoneTypeFromOverpass (gridDisk : String → Nat → List String)
    (h3Index : String) (elements : List Tags) (buffer : List String) :
    InferredZone × List String × Bool :=
  let f := elements.foldl scanElementArea initFlags
  if f.hasMilitary || f.hasPrisonOrGovernment then
    if f.hasMilitary then
      ({ zoneType := .MILITARY, debug := ["OSM: military tag detected"],
         hasRoad := f.hasRoad, roadClass := f.roadClass }, buffer, false)
    else
      ({ zoneType := .PRISON, debug := ["OSM: prison/government tag detected"],
         hasRoad := f.hasRoad, roadClass := f.roadClass }, buffer, false)
  else if f.hasHospital then
    ({ zoneType := .HOSPITAL, debug := ["OSM: hospital tag detected"],
       hasRoad := f.hasRoad, roadClass := f.roadClass }, buffer, false)
  else if f.hasMainRoad then
    ({ zoneType := .MAIN_ROAD, debug := ["OSM: main road detected (motorway/trunk)"],
       hasRoad := f.hasRoad, roadClass := f.roadClass }, buffer, false)
  else if f.hasCliff then
    ({ zoneType := .CLIFF, debug := ["OSM: cliff tag detected"],
       hasRoad := f.hasRoad, roadClass := f.roadClass }, buffer, false)
  else if f.hasCoast then
    let mb := markCoastAndBuffer gridDisk h3Index buffer
    ({ zoneType := .COAST, debug := ["OSM: coastline/beach tag detected"],
       hasRoad := f.hasRoad, roadClass := f.roadClass }, mb.1, mb.2)
  else if f.hasUrban then
    ({ zoneType := .URBAN, debug := ["OSM: urban fabric tag detected"],
       hasRoad := f.hasRoad, roadClass := f.roadClass }, buffer, false)
  else if f.hasSea then
    ({ zoneType := .SEA, debug := ["OSM: water/sea tag detected"],
       hasRoad := f.hasRoad, roadClass := f.roadClass }, buffer, false)
  else if f.hasNature then
    ({ zoneType := .NATURE_RESERVE, debug := ["OSM: park / forest / wood detected"],
       hasRoad := f.hasRoad, roadClass := f.roadClass }, buffer, false)
  else
    ({ zoneType := .INTERURBAN,
       debug := ["OSM: no matching tags found, defaulting to INTERURBAN (global fallback)"],
       hasRoad := f.hasRoad, roadClass := f.roadClass }, buffer, false)

/-- inferZoneTypeAtCentroid after a successful Overpass response: the local
variant has no side effects, omits cliff/coast, and defaults to SEA. -/
def inferZoneTypeAtCentroid (elements : List Tags) : InferredZone :=
  let f := elements.foldl scanElementCentroid initFlags
  if f.hasMilitary || f.hasPrisonOrGovernment then
    if f.hasMilitary then
      { zoneType := .MILITARY, debug := ["Centroid: military tag detected"],
        hasRoad := f.hasRoad, roadClass := f.roadClass }
    else
      { zoneType := .PRISON, debug := ["Centroid: prison/government tag detected"],
        hasRoad := f.hasRoad, roadClass := f.roadClass }
  else if f.hasHospital then
    { zoneType := .HOSPITAL, debug := ["Centroid: hospital tag detected"],
      hasRoad := f.hasRoad, roadClass := f.roadClass }
  else if f.hasMainRoad then
    { zoneType := .MAIN_ROAD, debug := ["Centroid: main road detected (motorway/trunk)"],
      hasRoad := f.hasRoad, roadClass := f.roadClass }
  else if f.hasUrban then
    { zoneType := .URBAN, debug := ["Centroid: urban fabric tag detected"],
      hasRoad := f.hasRoad, roadClass := f.roadClass }
  else if f.hasSea then
    { zoneType := .SEA, debug := ["Centroid: water/sea tag detected"],
      hasRoad := f.hasRoad, roadClass := f.roadClass }
  else if f.hasNature then
    { zoneType := .NATURE_RESERVE, debug := ["Centroid: park / forest / wood detected"],
      hasRoad := f.hasRoad, roadClass := f.roadClass }
  else
    { zoneType := .SEA,
      debug := ["Centroid: no matching tags found, defaulting to SEA (global fallback)"],
      hasRoad := f.hasRoad, roadClass := f.roadClass }

/-- fallbackZoneType: the deterministic latitude-based fallback used when
Overpass is unavailable. The latitude of the cell centre comes from the
external grid library and is a parameter. -/
def fallbackZoneType (cellToLat : String → ℚ) (h3Index : String) : ZoneType :=
  if cellToLat h3Index > 73 ∨ cellToLat h3Index < -73 then .SEA else .INTERURBAN

/-! ## Classification cache and the GET hex endpoint -/

/-- One entry of the classification cache (hexCache). -/
structure HexCacheEntry where
  zoneType : ZoneType
  debug : List String
  deriving DecidableEq, Repr

/-- The classification cache, keyed by cell identifier. -/
abbrev HexCache := List (String × HexCacheEntry)

def cacheLookup (cache : HexCache) (idx : String) : Option HexCacheEntry :=
  (cache.find? (fun p => p.1 == idx)).map (fun p => p.2)

/-- Assignment hexCache at key idx: overwrite an existing entry or append a
new one. -/
def cacheInsert (cache : HexCache) (idx : String) (e : HexCacheEntry) : HexCache :=
  if (cache.find? (fun p => p.1 == idx)).isSome then
    cache.map (fun p => if p.1 == idx then (idx, e) else p)
  else
    cache ++ [(idx, e)]

/-- Zone types that the read-time coast widening never overrides. -/
def nonOverridable (z : ZoneType) : Bool :=
  z == .MILITARY || z == .PRISON || z == .HOSPITAL || z == .MAIN_ROAD || z == .CLIFF

/-- Whether some cell within the display radius has a cached COAST entry. -/
def cachedCoastNearby (gridDisk : String → Nat → List String)
    (cache : HexCache) (h3Index : String) : Bool :=
  (gridDisk h3Index DISPLAY_COAST_BUFFER_K).any
    (fun idx => (cacheLookup cache idx).map (fun e => e.zoneType) == some .COAST)

/-- The base result that applyCoastBufferFromCache widens. -/
structure ZoneResult where
  zoneType : ZoneType
  debug : List String
  deriving DecidableEq, Repr

/-- applyCoastBufferFromCache: pure read-time widening of the returned
category to COAST when a cached coastline cell is within
DISPLAY_COAST_BUFFER_K rings; high-priority categories are never
overridden and nothing is written back. -/
def applyCoastBufferFromCache (gridDisk : String → Nat → List String)
    (cache : HexCache) (h3Index : String) (base : ZoneResult) : ZoneResult :=
  if nonOverridable base.zoneType then base
  else if cachedCoastNearby gridDisk cache h3Index then
    { zoneType := .COAST,
      debug := base.debug ++ ["Coast buffer: within 3 hexes of cached coastline"] }
  else base

/-- Response of GET /api/hex/:h3Index, or an HTTP 400 for an invalid index. -/
inductive HexGetOutcome where
  | httpError (code : Nat) (error : String)
  | result (h3Index : String) (zoneType : ZoneType) (debug : List String)
  deriving DecidableEq, Repr

/-- GET /api/hex/:h3Index: cache-first; on a miss query Overpass (upstream is
some elements on success, none when retries are exhausted); cache only
successful classifications; on failure compute the latitude fallback without
writing the cache; finally apply the read-time coast widening. Returns the
response together with the new cache and coastal buffer. -/
def handleGetHex (gridDisk : String → Nat → List String) (cellToLat : String → ℚ)
    (upstream : Option (List Tags)) (cache : HexCache) (buffer : List String)
    (h3Index : String) : HexGetOutcome × HexCache × List String :=
  if h3Index = "" then (.httpError 400 "INVALID_H3_INDEX", cache, buffer)
  else
    match cacheLookup cache h3Index with
    | some entry =>
        let coastAware := applyCoastBufferFromCache gridDisk cache h3Index
          { zoneType := entry.zoneType, debug := entry.debug }
        (.result h3Index coastAware.zoneType coastAware.debug, cache, buffer)
    | none =>
        match upstream with
        | some elements =>
            let r := inferZoneTypeFromOverpass gridDisk h3Index elements buffer
            let entry : HexCacheEntry := { zoneType := r.1.zoneType, debug := r.1.debug }
            let cache2 := cacheInsert cache h3Index entry
            let coastAware := applyCoastBufferFromCache gridDisk cache2 h3Index
              { zoneType := entry.zoneType, debug := entry.debug }
            (.result h3Index coastAware.zoneType coastAware.debug, cache2, r.2.1)
        | none =>
            let entry : HexCacheEntry :=
              { zoneType := fallbackZoneType cellToLat h3Index,
                debug := ["Overpass failed in /api/hex",
                          "Using hash-based zoneType fallback for this hex"] }
            let coastAware := applyCoastBufferFromCache gridDisk cache h3Index
              { zoneType := entry.zoneType, debug := entry.debug }
            (.result h3Index coastAware.zoneType coastAware.debug, cache, buffer)

/-! ## Mining ownership engine: state -/

def DEFAULT_START_HEX : String := "8b3f4dc1e26dfff"

def SPAWN_COST_GHX : ℤ := 5

def DRIVE_COST_GHX : ℤ := 5

def DRIVE_DISK_K : Nat := 3

def GPS_MINE_ACCURACY_THRESHOLD_M : ℚ := 35

def GPS_MINE_MAX_AGE_MS : ℚ := 15000

/-- A user account. The owned-hexes Set of the server is modelled as a
duplicate-free list; setAdd below mirrors Set.add. Password hashing is an
external collaborator and is omitted. -/
structure User where
  id : String
  email : String
  balance : ℤ
  usdtBalance : ℤ
  ownedHexes : List String
  deriving DecidableEq, Repr

/-- Set.add on a set-as-list: append only if absent. -/
def setAdd (s : List String) (idx : String) : List String :=
  if idx ∈ s then s else s ++ [idx]

/-- The mutable server state the mining engine touches: usersById, the
coastal buffer set, the treasury balance and the mining-event log. An event
is recorded as (userId, h3Index); its timestamp is external. -/
structure ServerState where
  users : List User
  coastBufferHexes : List String
  treasuryGhx : ℤ
  miningEvents : List (String × String)
  deriving DecidableEq, Repr

/-- usersById.get, by user id. -/
def findUser (st : ServerState) (uid : String) : Option User :=
  st.users.find? (fun u => u.id == uid)

/-- Writing the mutated user object back: every stored user with the same id
is replaced. -/
def updateUser (users : List User) (u : User) : List User :=
  users.map (fun v => if v.id == u.id then u else v)

/-- buildGlobalOwnedHexesSet: the union of all owned-hex sets. -/
def buildGlobalOwnedHexesSet (st : ServerState) : List String :=
  st.users.foldl (fun acc u => acc ++ u.ownedHexes) []

/-- collectTreasuryFee: add a positive fee to the treasury; non-positive
amounts are ignored (the finiteness guard always holds for integers). -/
def collectTreasuryFee (treasuryGhx : ℤ) (amount : ℤ) : ℤ :=
  if amount ≤ 0 then treasuryGhx else treasuryGhx + amount

/-- createUser: a registered user starts with balance 10, usdtBalance 1000
and the default start hex owned. -/
def createUser (st : ServerState) (id email : String) : User × ServerState :=
  let user : User := { id := id, email := email, balance := 10,
                       usdtBalance := 1000, ownedHexes := [DEFAULT_START_HEX] }
  (user, { st with users := st.users ++ [user] })

/-! ## Mine -/

/-- The geolocation-proof fields of a mine or spawn request body. A field is
none when it is absent, not a number, or not finite. -/
structure GpsBody where
  lat : Option ℚ := none
  lon : Option ℚ := none
  accuracyM : Option ℚ := none
  gpsAt : Option ℚ := none
  deriving DecidableEq, Repr

inductive MineReason where
  | ALREADY_MINED
  | OWNED_BY_OTHER
  | FORBIDDEN_ZONE
  deriving DecidableEq, Repr

inductive MineOutcome where
  | httpError (code : Nat) (error : String)
  | fail (reason : MineReason) (balance : ℤ) (owned : Bool)
  | success (balance : ℤ) (owned : Bool)
  deriving DecidableEq, Repr

/-- POST /api/mine. The request body carries a geolocation proof, but the
handler never reads it: the source says GPS verification is temporarily
disabled for testing. Checks, in order: the callers own set (ALREADY_MINED),
the global owned set (OWNED_BY_OTHER), the coastal buffer (FORBIDDEN_ZONE);
on success the cell is added, the balance is credited 1, and a mining event
is appended. -/
def mine (st : ServerState) (uid : String) (h3Index : String) (_gps : GpsBody) :
    MineOutcome × ServerState :=
  match findUser st uid with
  | none => (.httpError 401 "UNAUTHENTICATED", st)
  | some user =>
    if h3Index = "" then (.httpError 400 "INVALID_H3_INDEX", st)
    else if h3Index ∈ user.ownedHexes then
      (.fail .ALREADY_MINED user.balance true, st)
    else if h3Index ∈ buildGlobalOwnedHexesSet st then
      (.fail .OWNED_BY_OTHER user.balance false, st)
    else if h3Index ∈ st.coastBufferHexes then
      (.fail .FORBIDDEN_ZONE user.balance false, st)
    else
      let user2 : User := { user with
                            ownedHexes := setAdd user.ownedHexes h3Index,
                            balance := user.balance + 1 }
      (.success user2.balance true,
       { st with users := updateUser st.users user2,
                 miningEvents := st.miningEvents ++ [(uid, h3Index)] })

/-! ## Spawn -/

inductive SpawnReason where
  | GPS_REQUIRED
  | GPS_STALE
  | GPS_ACCURACY_LOW
  | GPS_MISMATCH
  | ALREADY_OWNED
  | INSUFFICIENT_GHX
  deriving DecidableEq, Repr

inductive SpawnOutcome where
  | httpError (code : Nat) (error : String)
  | fail (reason : SpawnReason) (balance : ℤ) (owned : Bool)
  | success (balance : ℤ) (owned : Bool)
  deriving DecidableEq, Repr

/-- POST /api/spawn. Checks, in order: the geolocation proof (presence and
finiteness, staleness, accuracy, and that the proof resolves to the claimed
cell via the external latLngToCell at resolution 11), then the callers OWN
owned set only (ALREADY_OWNED), then the balance against the spawn cost.
On success the cost is debited and credited to the treasury, the cell is
added, and a mining event is appended. The current time and latLngToCell
are parameters. -/
def spawn (latLngToCell : ℚ → ℚ → Nat → Option String) (now : ℚ)
    (st : ServerState) (uid : String) (h3Index : String) (gps : GpsBody) :
    SpawnOutcome × ServerState :=
  match findUser st uid with
  | none => (.httpError 401 "UNAUTHENTICATED", st)
  | some user =>
    if h3Index = "" then (.httpError 400 "INVALID_H3_INDEX", st)
    else
      match gps.lat, gps.lon, gps.accuracyM, gps.gpsAt with
      | some lat, some lon, some accuracyM, some gpsAt =>
        if now - gpsAt > GPS_MINE_MAX_AGE_MS then
          (.fail .GPS_STALE user.balance false, st)
        else if accuracyM > GPS_MINE_ACCURACY_THRESHOLD_M then
          (.fail .GPS_ACCURACY_LOW user.balance false, st)
        else
          match latLngToCell lat lon 11 with
          | none => (.fail .GPS_REQUIRED user.balance false, st)
          | some gpsHex =>
            if gpsHex ≠ h3Index then
              (.fail .GPS_MISMATCH user.balance false, st)
            else if h3Index ∈ user.ownedHexes then
              (.fail .ALREADY_OWNED user.balance true, st)
            else if user.balance < SPAWN_COST_GHX then
              (.fail .INSUFFICIENT_GHX user.balance false, st)
            else
              let user2 : User := { user with
                                    balance := user.balance - SPAWN_COST_GHX,
                                    ownedHexes := setAdd user.ownedHexes h3Index }
              (.success user2.balance true,
               { st with users := updateUser st.users user2,
                         treasuryGhx := collectTreasuryFee st.treasuryGhx SPAWN_COST_GHX,
                         miningEvents := st.miningEvents ++ [(uid, h3Index)] })
      | _, _, _, _ => (.fail .GPS_REQUIRED user.balance false, st)

/-! ## Drive mode -/

/-- A candidate hex qualifies for drive-mode claiming when its dominant zone
is MAIN_ROAD or its road-presence flag is set. -/
def isRoadHexResult (iz : InferredZone) : Bool :=
  iz.zoneType == .MAIN_ROAD || iz.hasRoad

/-- The filtering loop shared by both drive endpoints: skip cells the caller
already owns, skip cells whose classification fails (classify returns none),
and keep road hexes. The centroid classifier, being network-dependent, is a
parameter. -/
def driveNewlyMined (classify : String → Option InferredZone)
    (owned : List String) (path : List String) : List String :=
  path.filter (fun idx =>
    if idx ∈ owned then false
    else
      match classify idx with
      | some iz => isRoadHexResult iz
      | none => false)

/-- The list of cells a drive step actually claims: the road hexes of the
grid path, or, if there are none and the target is unowned, the target cell
alone. -/
def driveStepClaimed (gridPathCells : String → String → Option (List String))
    (classify : String → Option InferredZone)
    (user : User) (fromH3 toH3 : String) : List String :=
  let path := (gridPathCells fromH3 toH3).getD [toH3]
  let mined0 := driveNewlyMined classify user.ownedHexes path
  if mined0 = [] ∧ toH3 ∉ user.ownedHexes then [toH3] else mined0

inductive DriveStepOutcome where
  | httpError (code : Nat) (error : String)
  | fail (reason : String) (balance : ℤ)
  | success (minedHexes : List String) (count : ℕ) (grossReward : ℤ)
      (fee : ℤ) (netDelta : ℤ) (newBalance : ℤ)
  deriving DecidableEq, Repr

/-- POST /api/drive/step. The validity test of a cell index is modelled by
cellToLatLng (the external conversion, none when it would throw). The path
comes from the external gridPathCells, falling back to the target cell alone
when no path exists. The fee is 10 percent of the count, floored: for every
count a JavaScript double can reach here, Math.floor of 0.1 times N equals
the integer division N / 10, which is how it is written below. -/
def driveStep (gridPathCells : String → String → Option (List String))
    (classify : String → Option InferredZone)
    (cellToLatLng : String → Option (ℚ × ℚ))
    (st : ServerState) (uid : String) (fromH3 toH3 : String) :
    DriveStepOutcome × ServerState :=
  match findUser st uid with
  | none => (.httpError 401 "UNAUTHENTICATED", st)
  | some user =>
    if fromH3 = "" ∨ toH3 = "" then (.httpError 400 "INVALID_H3_INDEX", st)
    else if fromH3 = toH3 then (.fail "SAME_HEX" user.balance, st)
    else if (cellToLatLng fromH3).isNone ∨ (cellToLatLng toH3).isNone then
      (.httpError 400 "INVALID_H3_INDEX", st)
    else
      let newlyMined := driveStepClaimed gridPathCells classify user fromH3 toH3
      let N := newlyMined.length
      if N = 0 then (.fail "NO_ROAD_HEXES" user.balance, st)
      else
        let grossReward : ℤ := N
        let fee : ℤ := (N : ℤ) / 10
        let netDelta : ℤ := grossReward - fee
        let user2 : User := { user with
                              balance := user.balance + netDelta,
                              ownedHexes := newlyMined.foldl setAdd user.ownedHexes }
        (.success newlyMined N grossReward fee netDelta user2.balance,
         { st with users := updateUser st.users user2,
                   treasuryGhx := collectTreasuryFee st.treasuryGhx fee,
                   miningEvents := st.miningEvents ++ newlyMined.map (fun idx => (uid, idx)) })

inductive DriveSimOutcome where
  | httpError (code : Nat) (error : String)
  | fail (reason : String) (balance : ℤ)
  | success (addedHexes : ℕ) (ghxCost : ℤ) (newBalance : ℤ) (claimedHexes : List String)
  deriving DecidableEq, Repr

/-- POST /api/drive/simulate. Candidates are the disk of radius DRIVE_DISK_K
around the centre cell, filtered by the same road test against the callers
own set; the flat cost is debited once (credited to the treasury) and 1 GHX
is paid per newly claimed hex. -/
def driveSimulate (gridDisk : String → Nat → List String)
    (classify : String → Option InferredZone)
    (cellToLatLng : String → Option (ℚ × ℚ))
    (st : ServerState) (uid : String) (centerH3Index : String) :
    DriveSimOutcome × ServerState :=
  match findUser st uid with
  | none => (.httpError 401 "UNAUTHENTICATED", st)
  | some user =>
    if centerH3Index = "" then (.httpError 400 "INVALID_H3_INDEX", st)
    else if (cellToLatLng centerH3Index).isNone then
      (.httpError 400 "INVALID_H3_INDEX", st)
    else if user.balance < DRIVE_COST_GHX then
      (.fail "INSUFFICIENT_GHX" user.balance, st)
    else
      let candidates := gridDisk centerH3Index DRIVE_DISK_K
      let newlyClaimed := driveNewlyMined classify user.ownedHexes candidates
      if newlyClaimed = [] then (.fail "NO_ROAD_HEXES" user.balance, st)
      else
        let user2 : User :=
          { user with balance := user.balance - DRIVE_COST_GHX + newlyClaimed.length,
                      ownedHexes := newlyClaimed.foldl setAdd user.ownedHexes }
        (.success newlyClaimed.length DRIVE_COST_GHX user2.balance newlyClaimed,
         { st with users := updateUser st.users user2,
                   treasuryGhx := collectTreasuryFee st.treasuryGhx DRIVE_COST_GHX,
                   miningEvents := st.miningEvents ++ newlyClaimed.map (fun idx => (uid, idx)) })

/-! ## Concrete fixtures used by witnesses and counterexamples -/

def userA : User :=
  { id := "A", email := "a@x", balance := 10, usdtBalance := 1000, ownedHexes := ["a0"] }

def userB : User :=
  { id := "B", email := "b@x", balance := 0, usdtBalance := 1000, ownedHexes := ["cellX"] }

def stAB : ServerState :=
  { users := [userA, userB], coastBufferHexes := ["cellX"], treasuryGhx := 0, miningEvents := [] }

/-- A classifier stub that reports every cell as a motorway road hex. -/
def classifyRoad : String → Option InferredZone :=
  fun _ => some { zoneType := .MAIN_ROAD, debug := [], hasRoad := true, roadClass := some "motorway" }

/-- A grid-path stub: the path between any two cells is the two fixed cells. -/
def gridPathXT : String → String → Option (List String) :=
  fun _ _ => some ["cellX", "cellT"]

/-- A grid-disk stub returning the single fixed cell. -/
def gridDiskX : String → Nat → List String :=
  fun _ _ => ["cellX"]

/-- A cell-to-coordinates stub under which every index is valid. -/
def locOk : String → Option (ℚ × ℚ) :=
  fun _ => some (0, 0)

/-- A latLngToCell stub resolving every coordinate to the fixed cell. -/
def llcX : ℚ → ℚ → Nat → Option String :=
  fun _ _ _ => some "cellX"

/-- A geolocation proof that passes every check of spawn at time 0. -/
def gpsOkBody : GpsBody :=
  { lat := some 0, lon := some 0, accuracyM := some 10, gpsAt := some 0 }

/-- A grid-disk stub with two disk cells, for the C8 witness. -/
def gridDiskTwo : String → Nat → List String :=
  fun _ _ => ["d1", "d2"]

/-- A single coastline-tagged way. -/
def elsCoast : List Tags :=
  [{ natural := some "coastline" }]

/-- The number of newly claimable cells of a drive step. -/
def driveStepN (gpc : String → String → Option (List String))
    (cls : String → Option InferredZone) (user : User) (fromH3 toH3 : String) : ℕ :=
  (driveStepClaimed gpc cls user fromH3 toH3).length

/-- The ids of the stored users are pairwise distinct (usersById is a map
keyed by id). -/
def IdsNodup (st : ServerState) : Prop :=
  st.users.Pairwise (fun u v => u.id ≠ v.id)

/-- The ownership-uniqueness invariant: distinct users own disjoint cell
sets, so every cell has at most one owner. -/
def OwnedDisjoint (st : ServerState) : Prop :=
  st.users.Pairwise (fun u v => ∀ c ∈ u.ownedHexes, c ∉ v.ownedHexes)

/-- A sequence of mine calls, each given as (userId, cell, geolocation
proof). -/
def runMines (st : ServerState) (calls : List (String × String × GpsBody)) : ServerState :=
  calls.foldl (fun s call => (mine s call.1 call.2.1 call.2.2).2) st

/-! ## Helper lemmas: scan flags -/

theorem scanRoad_hasMilitary (f : Flags) (t : Tags) :
    (scanRoad f t).hasMilitary = f.hasMilitary := by
  unfold scanRoad; split <;> rfl

theorem scanRoad_hasHospital (f : Flags) (t : Tags) :
    (scanRoad f t).hasHospital = f.hasHospital := by
  unfold scanRoad; split <;> rfl

theorem scanRoad_hasPrisonOrGovernment (f : Flags) (t : Tags) :
    (scanRoad f t).hasPrisonOrGovernment = f.hasPrisonOrGovernment := by
  unfold scanRoad; split <;> rfl

theorem scanRoad_hasCoast (f : Flags) (t : Tags) :
    (scanRoad f t).hasCoast = f.hasCoast := by
  unfold scanRoad; split <;> rfl

theorem scanRoad_hasCliff (f : Flags) (t : Tags) :
    (scanRoad f t).hasCliff = f.hasCliff := by
  unfold scanRoad; split <;> rfl

theorem scanRoad_hasMainRoad (f : Flags) (t : Tags) :
    (scanRoad f t).hasMainRoad = (f.hasMainRoad || isMainRoadTag t) := by
  unfold scanRoad isMainRoadTag
  split <;> rename_i h <;> simp [h]

theorem scanRoad_hasRoad (f : Flags) (t : Tags) :
    (scanRoad f t).hasRoad = (f.hasRoad || truthy t.highway) := by
  unfold scanRoad
  split <;> rename_i h <;> simp [h]

theorem scanElementArea_hasMilitary (f : Flags) (t : Tags) :
    (scanElementArea f t).hasMilitary = (f.hasMilitary || isMilitaryTag t) := by
  simp [scanElementArea, scanRoad_hasMilitary]

theorem scanElementArea_hasHospital (f : Flags) (t : Tags) :
    (scanElementArea f t).hasHospital = (f.hasHospital || isHospitalTag t) := by
  simp [scanElementArea, scanRoad_hasHospital]

theorem scanElementArea_hasPrisonOrGovernment (f : Flags) (t : Tags) :
    (scanElementArea f t).hasPrisonOrGovernment
      = (f.hasPrisonOrGovernment || isPrisonOrGovernmentTag t) := by
  simp [scanElementArea, scanRoad_hasPrisonOrGovernment]

theorem scanElementArea_hasMainRoad (f : Flags) (t : Tags) :
    (scanElementArea f t).hasMainRoad = (f.hasMainRoad || isMainRoadTag t) := by
  simp [scanElementArea, scanRoad_hasMainRoad]

theorem scanElementArea_hasRoad (f : Flags) (t : Tags) :
    (scanElementArea f t).hasRoad = (f.hasRoad || truthy t.highway) := by
  simp [scanElementArea, scanRoad_hasRoad]

theorem scanElementArea_hasCoast (f : Flags) (t : Tags) :
    (scanElementArea f t).hasCoast = (f.hasCoast || isCoastTag t) := by
  simp [scanElementArea, scanRoad_hasCoast]

theorem scanElementArea_hasCliff (f : Flags) (t : Tags) :
    (scanElementArea f t).hasCliff = (f.hasCliff || isCliffTag t) := by
  simp [scanElementArea, scanRoad_hasCliff]

theorem scanElementCentroid_hasMainRoad (f : Flags) (t : Tags) :
    (scanElementCentroid f t).hasMainRoad = (f.hasMainRoad || isMainRoadTag t) := by
  simp [scanElementCentroid, scanRoad_hasMainRoad]

theorem scanElementCentroid_hasRoad (f : Flags) (t : Tags) :
    (scanElementCentroid f t).hasRoad = (f.hasRoad || truthy t.highway) := by
  simp [scanElementCentroid, scanRoad_hasRoad]

theorem foldlArea_hasMilitary (els : List Tags) (f : Flags) :
    (els.foldl scanElementArea f).hasMilitary
      = (f.hasMilitary || els.any isMilitaryTag) := by
  induction els generalizing f with
  | nil => simp
  | cons t ts ih => simp [List.foldl_cons, ih, scanElementArea_hasMilitary, Bool.or_assoc]

theorem foldlArea_hasHospital (els : List Tags) (f : Flags) :
    (els.foldl scanElementArea f).hasHospital
      = (f.hasHospital || els.any isHospitalTag) := by
  induction els generalizing f with
  | nil => simp
  | cons t ts ih => simp [List.foldl_cons, ih, scanElementArea_hasHospital, Bool.or_assoc]

theorem foldlArea_hasPrisonOrGovernment (els : List Tags) (f : Flags) :
    (els.foldl scanElementArea f).hasPrisonOrGovernment
      = (f.hasPrisonOrGovernment || els.any isPrisonOrGovernmentTag) := by
  induction els generalizing f with
  | nil => simp
  | cons t ts ih =>
      simp [List.foldl_cons, ih, scanElementArea_hasPrisonOrGovernment, Bool.or_assoc]

theorem foldlArea_hasMainRoad (els : List Tags) (f : Flags) :
    (els.foldl scanElementArea f).hasMainRoad
      = (f.hasMainRoad || els.any isMainRoadTag) := by
  induction els generalizing f with
  | nil => simp
  | cons t ts ih => simp [List.foldl_cons, ih, scanElementArea_hasMainRoad, Bool.or_assoc]

theorem foldlArea_hasCoast (els : List Tags) (f : Flags) :
    (els.foldl scanElementArea f).hasCoast = (f.hasCoast || els.any isCoastTag) := by
  induction els generalizing f with
  | nil => simp
  | cons t ts ih => simp [List.foldl_cons, ih, scanElementArea_hasCoast, Bool.or_assoc]

theorem foldlArea_hasCliff (els : List Tags) (f : Flags) :
    (els.foldl scanElementArea f).hasCliff = (f.hasCliff || els.any isCliffTag) := by
  induction els generalizing f with
  | nil => simp
  | cons t ts ih => simp [List.foldl_cons, ih, scanElementArea_hasCliff, Bool.or_assoc]

/-! ## Helper lemmas: priority resolution -/

theorem resolveArea_eq_spec (f : Flags) : resolveArea f = resolveAreaSpec f := by
  rcases f with ⟨mr, sea, na, ur, mil, hos, pg, co, cl, rd, rc⟩
  cases mil <;> cases pg <;> cases hos <;> cases mr <;> cases cl <;>
    cases co <;> cases ur <;> cases sea <;> cases na <;> rfl

theorem resolveCentroid_eq_spec (f : Flags) : resolveCentroid f = resolveCentroidSpec f := by
  rcases f with ⟨mr, sea, na, ur, mil, hos, pg, co, cl, rd, rc⟩
  cases mil <;> cases pg <;> cases hos <;> cases mr <;>
    cases ur <;> cases sea <;> cases na <;> rfl

/-! ## C5 -/

/-- C5: both classifier variants resolve the scanned flags by the fixed
first-match priority MILITARY/PRISON-or-GOVERNMENT, HOSPITAL, MAIN_ROAD
(only motorway/trunk force it; any other highway class only sets the
road-presence flag), CLIFF, COAST (area variant only), URBAN, SEA,
NATURE_RESERVE; with no flag set, the area variant returns INTERURBAN and
the local variant returns SEA. -/
theorem C5_priority_resolution :
    (∀ f : Flags, resolveArea f = resolveAreaSpec f) ∧
    (∀ f : Flags, resolveCentroid f = resolveCentroidSpec f) ∧
    (∀ (f : Flags) (t : Tags),
       (scanElementArea f t).hasMainRoad = (f.hasMainRoad || isMainRoadTag t)) ∧
    (∀ (f : Flags) (t : Tags),
       (scanElementArea f t).hasRoad = (f.hasRoad || truthy t.highway)) ∧
    (∀ (f : Flags) (t : Tags),
       (scanElementCentroid f t).hasMainRoad = (f.hasMainRoad || isMainRoadTag t)) ∧
    (∀ (f : Flags) (t : Tags),
       (scanElementCentroid f t).hasRoad = (f.hasRoad || truthy t.highway)) ∧
    (∀ (gd : String → Nat → List String) (h3 : String) (buf : List String),
       (inferZoneTypeFromOverpass gd h3 [] buf).1.zoneType = ZoneType.INTERURBAN) ∧
    (inferZoneTypeAtCentroid []).zoneType = ZoneType.SEA :=
  ⟨resolveArea_eq_spec, resolveCentroid_eq_spec,
   scanElementArea_hasMainRoad, scanElementArea_hasRoad,
   scanElementCentroid_hasMainRoad, scanElementCentroid_hasRoad,
   fun _ _ _ => rfl, rfl⟩

/-! ## C3 -/

/-- C3: the claim says Mine rejects missing, stale, inaccurate or mismatched
geolocation proofs, and the source comments mark GPS verification as
temporarily disabled; the handler in fact ignores the proof entirely. The
first conjunct shows the mine result and state never depend on the proof;
the second evaluates a mine call whose proof is entirely missing and shows
it succeeds instead of failing with GPS_REQUIRED. -/
theorem C3_mine_ignores_gps :
    (∀ (st : ServerState) (uid h3Index : String) (g g2 : GpsBody),
       mine st uid h3Index g = mine st uid h3Index g2) ∧
    (mine stAB "A" "cellFresh"
        { lat := none, lon := none, accuracyM := none, gpsAt := none }).1
      = MineOutcome.success 11 true := by
  refine ⟨fun st uid h3Index g g2 => rfl, ?_⟩
  decide

/-! ## C9 -/

/-- C9: createUser always starts a user with balance 10 and the default
start hex owned, so after two registrations with distinct ids the same cell
8b3f4dc1e26dfff lies in two distinct users owned sets. -/
theorem C9_shared_default_start_hex (st : ServerState) (a ea b eb : String)
    (hab : a ≠ b) :
    (∀ (st0 : ServerState) (i e : String),
       (createUser st0 i e).1.balance = 10 ∧
       (createUser st0 i e).1.ownedHexes = [DEFAULT_START_HEX]) ∧
    (∃ u v,
       u ∈ (createUser (createUser st a ea).2 b eb).2.users ∧
       v ∈ (createUser (createUser st a ea).2 b eb).2.users ∧
       u ≠ v ∧ DEFAULT_START_HEX ∈ u.ownedHexes ∧ DEFAULT_START_HEX ∈ v.ownedHexes) := by
  refine ⟨fun st0 i e => ⟨rfl, rfl⟩, ?_⟩
  refine ⟨(createUser st a ea).1, (createUser (createUser st a ea).2 b eb).1, ?_, ?_, ?_, ?_, ?_⟩
  · show _ ∈ (st.users ++ [(createUser st a ea).1]) ++ [_]
    simp [createUser]
  · show _ ∈ (st.users ++ [(createUser st a ea).1]) ++ [_]
    simp [createUser]
  · intro h
    exact hab (congrArg User.id h)
  · simp [createUser]
  · simp [createUser]

/-- Witness for C9 at a concrete empty state and two concrete registrations. -/
theorem C9_shared_default_start_hex_witness :
    ("A" : String) ≠ "B" ∧
    (∃ u v,
       u ∈ (createUser (createUser ⟨[], [], 0, []⟩ "A" "a@x").2 "B" "b@x").2.users ∧
       v ∈ (createUser (createUser ⟨[], [], 0, []⟩ "A" "a@x").2 "B" "b@x").2.users ∧
       u ≠ v ∧ DEFAULT_START_HEX ∈ u.ownedHexes ∧ DEFAULT_START_HEX ∈ v.ownedHexes) :=
  ⟨by decide,
   (C9_shared_default_start_hex ⟨[], [], 0, []⟩ "A" "a@x" "B" "b@x" (by decide)).2⟩

/-! ## C10 -/

/-- C10: DriveStep and DriveSimulate filter candidates only against the
calling users own owned set; at this concrete input both operations claim
cellX even though cellX is in the coastal buffer set and in another users
owned set. -/
theorem C10_drive_ignores_buffer_and_others :
    "cellX" ∈ stAB.coastBufferHexes ∧
    userB ∈ stAB.users ∧ "cellX" ∈ userB.ownedHexes ∧ userB.id ≠ "A" ∧
    (driveStep gridPathXT classifyRoad locOk stAB "A" "f" "t").1
      = DriveStepOutcome.success ["cellX", "cellT"] 2 2 0 2 12 ∧
    findUser (driveStep gridPathXT classifyRoad locOk stAB "A" "f" "t").2 "A"
      = some { userA with balance := 12, ownedHexes := ["a0", "cellX", "cellT"] } ∧
    (driveSimulate gridDiskX classifyRoad locOk stAB "A" "c").1
      = DriveSimOutcome.success 1 5 6 ["cellX"] ∧
    findUser (driveSimulate gridDiskX classifyRoad locOk stAB "A" "c").2 "A"
      = some { userA with balance := 6, ownedHexes := ["a0", "cellX"] } := by
  decide

/-! ## C4 -/

/-- Evaluation of the success branch of spawn: when the geolocation proof
passes, the caller does not own the cell, and the balance covers the cost,
the spawn succeeds with the cost debited and credited to the treasury. The
outcome does not depend on any other users owned set. -/
theorem spawn_success_eval (latLngToCell : ℚ → ℚ → Nat → Option String)
    (now : ℚ) (st : ServerState) (uid h3Index : String) (user : User)
    (lat lon accuracyM gpsAt : ℚ)
    (hu : findUser st uid = some user) (hh : h3Index ≠ "")
    (hst : now - gpsAt ≤ GPS_MINE_MAX_AGE_MS)
    (hacc : accuracyM ≤ GPS_MINE_ACCURACY_THRESHOLD_M)
    (hllc : latLngToCell lat lon 11 = some h3Index)
    (howned : h3Index ∉ user.ownedHexes)
    (hbal : SPAWN_COST_GHX ≤ user.balance) :
    spawn latLngToCell now st uid h3Index
        { lat := some lat, lon := some lon, accuracyM := some accuracyM, gpsAt := some gpsAt }
      = (.success (user.balance - SPAWN_COST_GHX) true,
         { st with
           users := updateUser st.users
             { user with
               balance := user.balance - SPAWN_COST_GHX,
               ownedHexes := user.ownedHexes ++ [h3Index] },
           treasuryGhx := st.treasuryGhx + SPAWN_COST_GHX,
           miningEvents := st.miningEvents ++ [(uid, h3Index)] }) := by
  have hbal2 : ¬ user.balance < SPAWN_COST_GHX := not_lt.mpr hbal
  have hct : ∀ t : ℤ, collectTreasuryFee t SPAWN_COST_GHX = t + SPAWN_COST_GHX := by
    intro t
    simp [collectTreasuryFee, SPAWN_COST_GHX]
  simp [spawn, hu, hh, not_lt.mpr hst, not_lt.mpr hacc, hllc, howned, hbal2, setAdd, hct]

/-- C4 counterexample: the spawn handler never consults the global ownership
index. User B owns cellX; user A (who does not own it) spawns at cellX with
a passing geolocation proof and sufficient balance, and the call SUCCEEDS,
adding cellX to As owned set and debiting the cost, contrary to the claim
that it fails like Mine does. -/
theorem C4_counterexample :
    userB ∈ stAB.users ∧ "cellX" ∈ userB.ownedHexes ∧ userB.id ≠ "A" ∧
    (spawn llcX 0 stAB "A" "cellX" gpsOkBody).1 = SpawnOutcome.success 5 true ∧
    findUser (spawn llcX 0 stAB "A" "cellX" gpsOkBody).2 "A"
      = some { userA with balance := 5, ownedHexes := ["a0", "cellX"] } := by
  have h := spawn_success_eval llcX 0 stAB "A" "cellX" userA 0 0 10 0
    (by decide) (by decide)
    (by norm_num [GPS_MINE_MAX_AGE_MS])
    (by norm_num [GPS_MINE_ACCURACY_THRESHOLD_M])
    (by decide) (by decide) (by decide)
  have hg : gpsOkBody
      = ({ lat := some 0, lon := some 0, accuracyM := some 10, gpsAt := some 0 } : GpsBody) := rfl
  refine ⟨by decide, by decide, by decide, ?_, ?_⟩
  · rw [hg, h]
    decide
  · rw [hg, h]
    decide

/-- C4 amended: Spawn performs the geolocation checks but, unlike Mine,
checks ownership only against the callers OWN owned set (ALREADY_OWNED) and
the balance; it never consults the global ownership index, so its outcome is
as below for EVERY state, regardless of what other users own. Each conjunct
fixes the outcome and the resulting state of one branch. -/
theorem C4_spawn_own_set_only (latLngToCell : ℚ → ℚ → Nat → Option String)
    (now : ℚ) (st : ServerState) (uid h3Index : String) (user : User)
    (lat lon accuracyM gpsAt : ℚ)
    (hu : findUser st uid = some user) (hh : h3Index ≠ "") :
    (spawn latLngToCell now st uid h3Index
        { lat := none, lon := none, accuracyM := none, gpsAt := none }
      = (.fail .GPS_REQUIRED user.balance false, st)) ∧
    (now - gpsAt > GPS_MINE_MAX_AGE_MS →
      spawn latLngToCell now st uid h3Index
          { lat := some lat, lon := some lon, accuracyM := some accuracyM, gpsAt := some gpsAt }
        = (.fail .GPS_STALE user.balance false, st)) ∧
    (now - gpsAt ≤ GPS_MINE_MAX_AGE_MS → accuracyM > GPS_MINE_ACCURACY_THRESHOLD_M →
      spawn latLngToCell now st uid h3Index
          { lat := some lat, lon := some lon, accuracyM := some accuracyM, gpsAt := some gpsAt }
        = (.fail .GPS_ACCURACY_LOW user.balance false, st)) ∧
    (∀ gpsHex, now - gpsAt ≤ GPS_MINE_MAX_AGE_MS →
      accuracyM ≤ GPS_MINE_ACCURACY_THRESHOLD_M →
      latLngToCell lat lon 11 = some gpsHex → gpsHex ≠ h3Index →
      spawn latLngToCell now st uid h3Index
          { lat := some lat, lon := some lon, accuracyM := some accuracyM, gpsAt := some gpsAt }
        = (.fail .GPS_MISMATCH user.balance false, st)) ∧
    (now - gpsAt ≤ GPS_MINE_MAX_AGE_MS → accuracyM ≤ GPS_MINE_ACCURACY_THRESHOLD_M →
      latLngToCell lat lon 11 = some h3Index → h3Index ∈ user.ownedHexes →
      spawn latLngToCell now st uid h3Index
          { lat := some lat, lon := some lon, accuracyM := some accuracyM, gpsAt := some gpsAt }
        = (.fail .ALREADY_OWNED user.balance true, st)) ∧
    (now - gpsAt ≤ GPS_MINE_MAX_AGE_MS → accuracyM ≤ GPS_MINE_ACCURACY_THRESHOLD_M →
      latLngToCell lat lon 11 = some h3Index → h3Index ∉ user.ownedHexes →
      user.balance < SPAWN_COST_GHX →
      spawn latLngToCell now st uid h3Index
          { lat := some lat, lon := some lon, accuracyM := some accuracyM, gpsAt := some gpsAt }
        = (.fail .INSUFFICIENT_GHX user.balance false, st)) ∧
    (now - gpsAt ≤ GPS_MINE_MAX_AGE_MS → accuracyM ≤ GPS_MINE_ACCURACY_THRESHOLD_M →
      latLngToCell lat lon 11 = some h3Index → h3Index ∉ user.ownedHexes →
      SPAWN_COST_GHX ≤ user.balance →
      spawn latLngToCell now st uid h3Index
          { lat := some lat, lon := some lon, accuracyM := some accuracyM, gpsAt := some gpsAt }
        = (.success (user.balance - SPAWN_COST_GHX) true,
           { st with
             users := updateUser st.users
               { user with
                 balance := user.balance - SPAWN_COST_GHX,
                 ownedHexes := user.ownedHexes ++ [h3Index] },
             treasuryGhx := st.treasuryGhx + SPAWN_COST_GHX,
             miningEvents := st.miningEvents ++ [(uid, h3Index)] })) := by
  refine ⟨?_, ?_, ?_, ?_, ?_, ?_, ?_⟩
  · simp [spawn, hu, hh]
  · intro hst
    simp [spawn, hu, hh, hst]
  · intro hst hacc
    simp [spawn, hu, hh, not_lt.mpr hst, hacc]
  · intro gpsHex hst hacc hllc hne
    simp [spawn, hu, hh, not_lt.mpr hst, not_lt.mpr hacc, hllc, hne]
  · intro hst hacc hllc howned
    simp [spawn, hu, hh, not_lt.mpr hst, not_lt.mpr hacc, hllc, howned]
  · intro hst hacc hllc howned hbal
    simp [spawn, hu, hh, not_lt.mpr hst, not_lt.mpr hacc, hllc, howned, hbal]
  · intro hst hacc hllc howned hbal
    exact spawn_success_eval latLngToCell now st uid h3Index user lat lon accuracyM gpsAt
      hu hh hst hacc hllc howned hbal

/-- Witness for C4: the success branch of the amended theorem at the
concrete two-user state, where the spawned cell is owned by the other user. -/
theorem C4_spawn_own_set_only_witness :
    findUser stAB "A" = some userA ∧ ("cellX" : String) ≠ "" ∧
    spawn llcX 0 stAB "A" "cellX" gpsOkBody
      = (.success (userA.balance - SPAWN_COST_GHX) true,
         { stAB with
           users := updateUser stAB.users
             { userA with
               balance := userA.balance - SPAWN_COST_GHX,
               ownedHexes := userA.ownedHexes ++ ["cellX"] },
           treasuryGhx := stAB.treasuryGhx + SPAWN_COST_GHX,
           miningEvents := stAB.miningEvents ++ [("A", "cellX")] }) :=
  ⟨by decide, by decide,
   (C4_spawn_own_set_only llcX 0 stAB "A" "cellX" userA 0 0 10 0
      (by decide) (by decide)).2.2.2.2.2.2
     (by norm_num [GPS_MINE_MAX_AGE_MS])
     (by norm_num [GPS_MINE_ACCURACY_THRESHOLD_M])
     (by decide) (by decide) (by decide)⟩

/-! ## Helper lemmas: the coastal buffer fold -/

theorem foldl_addIfAbsent_subset (ds : List String) (l : List String) (b : Bool) :
    ∀ x ∈ l, x ∈ (ds.foldl addIfAbsent (l, b)).1 := by
  induction ds generalizing l b with
  | nil => intro x hx; exact hx
  | cons e ts ih =>
      intro x hx
      rw [List.foldl_cons]
      by_cases he : e ∈ l
      · rw [show addIfAbsent (l, b) e = (l, b) from if_pos he]
        exact ih l b x hx
      · rw [show addIfAbsent (l, b) e = (l ++ [e], true) from if_neg he]
        exact ih (l ++ [e]) true x (List.mem_append_left _ hx)

theorem foldl_addIfAbsent_mem (ds : List String) (l : List String) (b : Bool) :
    ∀ d ∈ ds, d ∈ (ds.foldl addIfAbsent (l, b)).1 := by
  induction ds generalizing l b with
  | nil => intro d hd; cases hd
  | cons e ts ih =>
      intro d hd
      rw [List.foldl_cons]
      rcases List.mem_cons.mp hd with rfl | hd2
      · by_cases he : d ∈ l
        · rw [show addIfAbsent (l, b) d = (l, b) from if_pos he]
          exact foldl_addIfAbsent_subset ts l b d he
        · rw [show addIfAbsent (l, b) d = (l ++ [d], true) from if_neg he]
          exact foldl_addIfAbsent_subset ts (l ++ [d]) true d
            (List.mem_append_right _ (List.mem_singleton.mpr rfl))
      · by_cases he : e ∈ l
        · rw [show addIfAbsent (l, b) e = (l, b) from if_pos he]
          exact ih l b d hd2
        · rw [show addIfAbsent (l, b) e = (l ++ [e], true) from if_neg he]
          exact ih (l ++ [e]) true d hd2

theorem foldl_addIfAbsent_fixed (ds : List String) (l : List String) (b : Bool)
    (h : ∀ d ∈ ds, d ∈ l) : ds.foldl addIfAbsent (l, b) = (l, b) := by
  induction ds with
  | nil => rfl
  | cons e ts ih =>
      rw [List.foldl_cons,
        show addIfAbsent (l, b) e = (l, b) from if_pos (h e (List.mem_cons_self e ts))]
      exact ih (fun d hd => h d (List.mem_cons_of_mem e hd))

theorem foldl_addIfAbsent_flag_true (ds : List String) (l : List String) :
    (ds.foldl addIfAbsent (l, true)).2 = true := by
  induction ds generalizing l with
  | nil => rfl
  | cons e ts ih =>
      rw [List.foldl_cons]
      by_cases he : e ∈ l
      · rw [show addIfAbsent (l, true) e = (l, true) from if_pos he]
        exact ih l
      · rw [show addIfAbsent (l, true) e = (l ++ [e], true) from if_neg he]
        exact ih (l ++ [e])

theorem foldl_addIfAbsent_grows (ds : List String) (l : List String) (b : Bool)
    (h : ∃ d ∈ ds, d ∉ l) : (ds.foldl addIfAbsent (l, b)).1 ≠ l := by
  rcases h with ⟨d, hd, hdl⟩
  intro heq
  exact hdl (heq ▸ foldl_addIfAbsent_mem ds l b d hd)

theorem foldl_addIfAbsent_flag (ds : List String) (l : List String) :
    (ds.foldl addIfAbsent (l, false)).2 = true ↔ ¬ (∀ d ∈ ds, d ∈ l) := by
  induction ds generalizing l with
  | nil => simp
  | cons e ts ih =>
      rw [List.foldl_cons]
      by_cases he : e ∈ l
      · rw [show addIfAbsent (l, false) e = (l, false) from if_pos he]
        rw [ih l]
        simp [he]
      · rw [show addIfAbsent (l, false) e = (l ++ [e], true) from if_neg he]
        simp only [foldl_addIfAbsent_flag_true]
        constructor
        · intro _ hall
          exact he (hall e (List.mem_cons_self e ts))
        · intro _
          trivial

/-- The changed flag of markCoastAndBuffer is true exactly when the buffer
set actually changed. -/
theorem markCoastAndBuffer_flag (gd : String → Nat → List String)
    (h3 : String) (buf : List String) :
    (markCoastAndBuffer gd h3 buf).2 = true ↔ (markCoastAndBuffer gd h3 buf).1 ≠ buf := by
  unfold markCoastAndBuffer
  rw [foldl_addIfAbsent_flag]
  constructor
  · intro hne
    apply foldl_addIfAbsent_grows
    push_neg at hne
    exact hne
  · intro hne hall
    exact hne (congrArg Prod.fst (foldl_addIfAbsent_fixed _ _ _ hall))

/-- The coastal buffer component after inferZoneTypeFromOverpass contains the
old buffer. -/
theorem inferZoneTypeFromOverpass_buffer_subset
    (gd : String → Nat → List String) (h3 : String) (els : List Tags)
    (buf : List String) :
    ∀ x ∈ buf, x ∈ (inferZoneTypeFromOverpass gd h3 els buf).2.1 := by
  intro x hx
  unfold inferZoneTypeFromOverpass
  dsimp only
  split
  · split
    · exact hx
    · exact hx
  · split
    · exact hx
    · split
      · exact hx
      · split
        · exact hx
        · split
          · exact foldl_addIfAbsent_subset _ _ _ x hx
          · split
            · exact hx
            · split
              · exact hx
              · split
                · exact hx
                · exact hx

theorem mine_buffer_unchanged (st : ServerState) (uid h3Index : String) (g : GpsBody) :
    (mine st uid h3Index g).2.coastBufferHexes = st.coastBufferHexes := by
  unfold mine
  split
  · rfl
  · split
    · rfl
    · split
      · rfl
      · split
        · rfl
        · split
          · rfl
          · rfl

theorem spawn_buffer_unchanged (llc : ℚ → ℚ → Nat → Option String) (now : ℚ)
    (st : ServerState) (uid h3Index : String) (g : GpsBody) :
    (spawn llc now st uid h3Index g).2.coastBufferHexes = st.coastBufferHexes := by
  unfold spawn
  split
  · rfl
  · split
    · rfl
    · split
      · split
        · rfl
        · split
          · rfl
          · split
            · rfl
            · split
              · rfl
              · split
                · rfl
                · split
                  · rfl
                  · rfl
      · rfl

theorem driveStep_buffer_unchanged (gpc : String → String → Option (List String))
    (cls : String → Option InferredZone) (loc : String → Option (ℚ × ℚ))
    (st : ServerState) (uid fromH3 toH3 : String) :
    (driveStep gpc cls loc st uid fromH3 toH3).2.coastBufferHexes = st.coastBufferHexes := by
  unfold driveStep
  dsimp only
  split
  · rfl
  · split
    · rfl
    · split
      · rfl
      · split
        · rfl
        · split
          · rfl
          · rfl

theorem driveSimulate_buffer_unchanged (gd : String → Nat → List String)
    (cls : String → Option InferredZone) (loc : String → Option (ℚ × ℚ))
    (st : ServerState) (uid centerH3Index : String) :
    (driveSimulate gd cls loc st uid centerH3Index).2.coastBufferHexes
      = st.coastBufferHexes := by
  unfold driveSimulate
  dsimp only
  split
  · rfl
  · split
    · rfl
    · split
      · rfl
      · split
        · rfl
        · split
          · rfl
          · rfl

theorem handleGetHex_buffer_subset (gd : String → Nat → List String)
    (clat : String → ℚ) (up : Option (List Tags)) (cache : HexCache)
    (buf : List String) (h3 : String) :
    ∀ x ∈ buf, x ∈ (handleGetHex gd clat up cache buf h3).2.2 := by
  intro x hx
  unfold handleGetHex
  split
  · exact hx
  · split
    · exact hx
    · split
      · exact inferZoneTypeFromOverpass_buffer_subset _ _ _ _ x hx
      · exact hx

/-! ## C2 -/

/-- C2: markCoastAndBuffer only adds cell identifiers and persists exactly
when the set changed; no core operation (mine, spawn, drive step, drive
simulate, the classification endpoint) ever removes a cell from the coastal
buffer set. -/
theorem C2_buffer_monotone :
    (∀ (gd : String → Nat → List String) (h3 : String) (buf : List String),
       (∀ x ∈ buf, x ∈ (markCoastAndBuffer gd h3 buf).1) ∧
       ((markCoastAndBuffer gd h3 buf).2 = true ↔ (markCoastAndBuffer gd h3 buf).1 ≠ buf)) ∧
    (∀ st uid h3Index g,
       (mine st uid h3Index g).2.coastBufferHexes = st.coastBufferHexes) ∧
    (∀ llc now st uid h3Index g,
       (spawn llc now st uid h3Index g).2.coastBufferHexes = st.coastBufferHexes) ∧
    (∀ gpc cls loc st uid fromH3 toH3,
       (driveStep gpc cls loc st uid fromH3 toH3).2.coastBufferHexes = st.coastBufferHexes) ∧
    (∀ gd cls loc st uid centerH3Index,
       (driveSimulate gd cls loc st uid centerH3Index).2.coastBufferHexes
         = st.coastBufferHexes) ∧
    (∀ gd clat up cache buf h3,
       ∀ x ∈ buf, x ∈ (handleGetHex gd clat up cache buf h3).2.2) :=
  ⟨fun gd h3 buf =>
     ⟨foldl_addIfAbsent_subset _ _ _, markCoastAndBuffer_flag gd h3 buf⟩,
   mine_buffer_unchanged, spawn_buffer_unchanged, driveStep_buffer_unchanged,
   driveSimulate_buffer_unchanged, handleGetHex_buffer_subset⟩

/-- Witness for C2 at concrete buffers and states. -/
theorem C2_buffer_monotone_witness :
    "b0" ∈ (markCoastAndBuffer gridDiskTwo "h" ["b0"]).1 ∧
    ((markCoastAndBuffer gridDiskTwo "h" ["b0"]).2 = true
      ↔ (markCoastAndBuffer gridDiskTwo "h" ["b0"]).1 ≠ ["b0"]) ∧
    (mine stAB "A" "c" {}).2.coastBufferHexes = stAB.coastBufferHexes ∧
    "b0" ∈ (handleGetHex gridDiskTwo (fun _ => 0) none [] ["b0"] "x").2.2 :=
  ⟨(C2_buffer_monotone.1 gridDiskTwo "h" ["b0"]).1 "b0" (by decide),
   (C2_buffer_monotone.1 gridDiskTwo "h" ["b0"]).2,
   C2_buffer_monotone.2.1 stAB "A" "c" {},
   C2_buffer_monotone.2.2.2.2.2 gridDiskTwo (fun _ => 0) none [] ["b0"] "x" "b0" (by decide)⟩

/-! ## C8 -/

/-- C8: when the area query returns a natural=coastline way and no tag of
any higher-priority category (military, prison/government, hospital,
motorway/trunk road, cliff), the area classifier returns COAST and, through
markCoastAndBuffer, the coastal buffer grows to include the full disk of
radius COAST_BUFFER_K = 4 around the cell (and keeps everything it had). -/
theorem C8_coastline_grows_buffer (gd : String → Nat → List String) (h3 : String)
    (els : List Tags) (buf : List String)
    (hcoast : ∃ t ∈ els, t.natural = some "coastline")
    (hmil : els.any isMilitaryTag = false)
    (hpg : els.any isPrisonOrGovernmentTag = false)
    (hhos : els.any isHospitalTag = false)
    (hmr : els.any isMainRoadTag = false)
    (hcl : els.any isCliffTag = false) :
    (inferZoneTypeFromOverpass gd h3 els buf).1.zoneType = ZoneType.COAST ∧
    (∀ x ∈ gd h3 COAST_BUFFER_K, x ∈ (inferZoneTypeFromOverpass gd h3 els buf).2.1) ∧
    (∀ x ∈ buf, x ∈ (inferZoneTypeFromOverpass gd h3 els buf).2.1) := by
  have fmil : (els.foldl scanElementArea initFlags).hasMilitary = false := by
    simp [foldlArea_hasMilitary, initFlags, hmil]
  have fpg : (els.foldl scanElementArea initFlags).hasPrisonOrGovernment = false := by
    simp [foldlArea_hasPrisonOrGovernment, initFlags, hpg]
  have fhos : (els.foldl scanElementArea initFlags).hasHospital = false := by
    simp [foldlArea_hasHospital, initFlags, hhos]
  have fmr : (els.foldl scanElementArea initFlags).hasMainRoad = false := by
    simp [foldlArea_hasMainRoad, initFlags, hmr]
  have fcl : (els.foldl scanElementArea initFlags).hasCliff = false := by
    simp [foldlArea_hasCliff, initFlags, hcl]
  have fc : (els.foldl scanElementArea initFlags).hasCoast = true := by
    rcases hcoast with ⟨t, ht, hn⟩
    have hct : isCoastTag t = true := by simp [isCoastTag, hn]
    have hany : els.any isCoastTag = true := List.any_eq_true.mpr ⟨t, ht, hct⟩
    simp [foldlArea_hasCoast, hany, initFlags]
  have hres : inferZoneTypeFromOverpass gd h3 els buf
      = ({ zoneType := .COAST, debug := ["OSM: coastline/beach tag detected"],
           hasRoad := (els.foldl scanElementArea initFlags).hasRoad,
           roadClass := (els.foldl scanElementArea initFlags).roadClass },
         (markCoastAndBuffer gd h3 buf).1, (markCoastAndBuffer gd h3 buf).2) := by
    unfold inferZoneTypeFromOverpass
    dsimp only
    rw [fmil, fpg, fhos, fmr, fcl, fc]
    simp
  rw [hres]
  exact ⟨rfl,
    fun x hx => foldl_addIfAbsent_mem (gd h3 COAST_BUFFER_K) buf false x hx,
    fun x hx => foldl_addIfAbsent_subset (gd h3 COAST_BUFFER_K) buf false x hx⟩

/-- Witness for C8 at a concrete coastline element list, disk and buffer. -/
theorem C8_coastline_grows_buffer_witness :
    (inferZoneTypeFromOverpass gridDiskTwo "h" elsCoast ["b0"]).1.zoneType = ZoneType.COAST ∧
    (∀ x ∈ gridDiskTwo "h" COAST_BUFFER_K,
       x ∈ (inferZoneTypeFromOverpass gridDiskTwo "h" elsCoast ["b0"]).2.1) ∧
    (∀ x ∈ ["b0"],
       x ∈ (inferZoneTypeFromOverpass gridDiskTwo "h" elsCoast ["b0"]).2.1) :=
  C8_coastline_grows_buffer gridDiskTwo "h" elsCoast ["b0"]
    (by decide) (by decide) (by decide) (by decide) (by decide) (by decide)

/-! ## C7 -/

/-- C7: the classification cache gains entries only from successful upstream
queries. On a cache miss with a failed upstream query (upstream none), the
endpoint leaves the cache and buffer untouched and serves the deterministic
latitude fallback; the displayed category equals that fallback whenever the
separately specified read-time coast widening does not apply. On a cache
hit nothing is written; on a successful upstream query exactly the
classified entry is inserted. -/
theorem C7_cache_purity (gd : String → Nat → List String) (clat : String → ℚ)
    (cache : HexCache) (buf : List String) (h3 : String) (hne : h3 ≠ "") :
    (cacheLookup cache h3 = none →
       (handleGetHex gd clat none cache buf h3).2.1 = cache ∧
       (handleGetHex gd clat none cache buf h3).2.2 = buf ∧
       (cachedCoastNearby gd cache h3 = false →
         (handleGetHex gd clat none cache buf h3).1
           = HexGetOutcome.result h3 (fallbackZoneType clat h3)
              ["Overpass failed in /api/hex",
               "Using hash-based zoneType fallback for this hex"])) ∧
    (∀ e, cacheLookup cache h3 = some e →
       ∀ up, (handleGetHex gd clat up cache buf h3).2.1 = cache) ∧
    (∀ els, cacheLookup cache h3 = none →
       (handleGetHex gd clat (some els) cache buf h3).2.1
         = cacheInsert cache h3
             { zoneType := (inferZoneTypeFromOverpass gd h3 els buf).1.zoneType,
               debug := (inferZoneTypeFromOverpass gd h3 els buf).1.debug }) := by
  refine ⟨?_, ?_, ?_⟩
  · intro hmiss
    refine ⟨?_, ?_, ?_⟩
    · simp [handleGetHex, hne, hmiss]
    · simp [handleGetHex, hne, hmiss]
    · intro hnc
      have hfb : nonOverridable (fallbackZoneType clat h3) = false := by
        unfold fallbackZoneType
        split <;> rfl
      simp [handleGetHex, hne, hmiss, applyCoastBufferFromCache, hfb, hnc]
  · intro e hhit up
    simp [handleGetHex, hne, hhit]
  · intro els hmiss
    simp [handleGetHex, hne, hmiss]

/-- Witness for C7 at an empty cache, empty disk and equator latitude: the
fallback is INTERURBAN, nothing is cached by the failing call, and a
successful empty query caches INTERURBAN. -/
theorem C7_cache_purity_witness :
    (handleGetHex (fun _ _ => []) (fun _ => 0) none [] [] "x").2.1 = [] ∧
    (handleGetHex (fun _ _ => []) (fun _ => 0) none [] [] "x").1
      = HexGetOutcome.result "x" (fallbackZoneType (fun _ => 0) "x")
          ["Overpass failed in /api/hex",
           "Using hash-based zoneType fallback for this hex"] ∧
    (handleGetHex (fun _ _ => []) (fun _ => 0) (some []) [] [] "x").2.1
      = cacheInsert [] "x"
          { zoneType := (inferZoneTypeFromOverpass (fun _ _ => []) "x" [] []).1.zoneType,
            debug := (inferZoneTypeFromOverpass (fun _ _ => []) "x" [] []).1.debug } := by
  have h := C7_cache_purity (fun _ _ => []) (fun _ => 0) [] [] "x" (by decide)
  exact ⟨(h.1 rfl).1, (h.1 rfl).2.2 rfl, h.2.2 [] rfl⟩

/-! ## Helper lemmas: user lookup after an update -/

theorem find?_updateUser (l : List User) (uid : String) (user u2 : User)
    (hfind : l.find? (fun v => v.id == uid) = some user) (hid : u2.id = uid) :
    (updateUser l u2).find? (fun v => v.id == uid) = some u2 := by
  induction l with
  | nil => simp at hfind
  | cons w ws ih =>
      unfold updateUser
      rw [List.map_cons]
      by_cases hw : w.id = uid
      · have h1 : (if w.id == u2.id then u2 else w) = u2 := by
          rw [if_pos]
          rw [hw, hid]
          exact beq_self_eq_true uid
        rw [h1]
        apply List.find?_cons_of_pos
        show (u2.id == uid) = true
        rw [hid]
        exact beq_self_eq_true uid
      · have h1 : (if w.id == u2.id then u2 else w) = w := by
          rw [if_neg]
          rw [hid]
          simp [hw]
        rw [h1]
        have hfind2 : ws.find? (fun v => v.id == uid) = some user := by
          rw [List.find?_cons_of_neg] at hfind
          · exact hfind
          · simp [hw]
        have hgoal := ih hfind2
        unfold updateUser at hgoal
        rw [List.find?_cons_of_neg]
        · exact hgoal
        · simp [hw]

theorem findUser_mem (st : ServerState) (uid : String) (user : User)
    (hu : findUser st uid = some user) : user ∈ st.users ∧ user.id = uid := by
  unfold findUser at hu
  exact ⟨List.mem_of_find?_eq_some hu,
    by have := List.find?_some hu; exact beq_iff_eq.mp this⟩

theorem collectTreasuryFee_nonneg (t a : ℤ) (ha : 0 ≤ a) :
    collectTreasuryFee t a = t + a := by
  unfold collectTreasuryFee
  split
  · rename_i h
    omega
  · rfl

/-! ## C6 -/

/-- C6: for every DriveStep call whose path yields N greater than 0 newly
claimable cells, the callers balance changes by exactly N minus N/10 (the
floored 10 percent fee) and the treasury increases by exactly N/10. -/
theorem C6_drive_step_fee_law (gpc : String → String → Option (List String))
    (cls : String → Option InferredZone) (loc : String → Option (ℚ × ℚ))
    (st : ServerState) (uid fromH3 toH3 : String) (user : User)
    (hu : findUser st uid = some user)
    (hf : fromH3 ≠ "") (ht : toH3 ≠ "") (hne : fromH3 ≠ toH3)
    (hvf : (loc fromH3).isSome = true) (hvt : (loc toH3).isSome = true)
    (hN : 0 < driveStepN gpc cls user fromH3 toH3) :
    (driveStep gpc cls loc st uid fromH3 toH3).1
      = DriveStepOutcome.success (driveStepClaimed gpc cls user fromH3 toH3)
          (driveStepN gpc cls user fromH3 toH3)
          ((driveStepN gpc cls user fromH3 toH3 : ℤ))
          ((driveStepN gpc cls user fromH3 toH3 : ℤ) / 10)
          ((driveStepN gpc cls user fromH3 toH3 : ℤ)
            - (driveStepN gpc cls user fromH3 toH3 : ℤ) / 10)
          (user.balance + ((driveStepN gpc cls user fromH3 toH3 : ℤ)
            - (driveStepN gpc cls user fromH3 toH3 : ℤ) / 10)) ∧
    findUser (driveStep gpc cls loc st uid fromH3 toH3).2 uid
      = some { user with
               balance := user.balance + ((driveStepN gpc cls user fromH3 toH3 : ℤ)
                 - (driveStepN gpc cls user fromH3 toH3 : ℤ) / 10),
               ownedHexes :=
                 (driveStepClaimed gpc cls user fromH3 toH3).foldl setAdd user.ownedHexes } ∧
    (driveStep gpc cls loc st uid fromH3 toH3).2.treasuryGhx
      = st.treasuryGhx + (driveStepN gpc cls user fromH3 toH3 : ℤ) / 10 := by
  have hfe : (loc fromH3).isNone = false := by
    cases h : loc fromH3 <;> simp_all
  have hte : (loc toH3).isNone = false := by
    cases h : loc toH3 <;> simp_all
  have hlen : ¬ (driveStepClaimed gpc cls user fromH3 toH3).length = 0 := by
    unfold driveStepN at hN
    omega
  have hev : driveStep gpc cls loc st uid fromH3 toH3
      = (DriveStepOutcome.success (driveStepClaimed gpc cls user fromH3 toH3)
          (driveStepN gpc cls user fromH3 toH3)
          ((driveStepN gpc cls user fromH3 toH3 : ℤ))
          ((driveStepN gpc cls user fromH3 toH3 : ℤ) / 10)
          ((driveStepN gpc cls user fromH3 toH3 : ℤ)
            - (driveStepN gpc cls user fromH3 toH3 : ℤ) / 10)
          (user.balance + ((driveStepN gpc cls user fromH3 toH3 : ℤ)
            - (driveStepN gpc cls user fromH3 toH3 : ℤ) / 10)),
         { st with
           users := updateUser st.users
             { user with
               balance := user.balance + ((driveStepN gpc cls user fromH3 toH3 : ℤ)
                 - (driveStepN gpc cls user fromH3 toH3 : ℤ) / 10),
               ownedHexes :=
                 (driveStepClaimed gpc cls user fromH3 toH3).foldl setAdd user.ownedHexes },
           treasuryGhx := collectTreasuryFee st.treasuryGhx
             ((driveStepN gpc cls user fromH3 toH3 : ℤ) / 10),
           miningEvents := st.miningEvents
             ++ (driveStepClaimed gpc cls user fromH3 toH3).map (fun idx => (uid, idx)) }) := by
    unfold driveStep driveStepN
    simp [hu, hf, ht, hne, hfe, hte, hlen]
  refine ⟨by rw [hev], ?_, ?_⟩
  · rw [hev]
    have huid : ({ user with
        balance := user.balance + ((driveStepN gpc cls user fromH3 toH3 : ℤ)
          - (driveStepN gpc cls user fromH3 toH3 : ℤ) / 10),
        ownedHexes :=
          (driveStepClaimed gpc cls user fromH3 toH3).foldl setAdd user.ownedHexes } : User).id
        = uid := (findUser_mem st uid user hu).2
    exact find?_updateUser st.users uid user _ hu huid
  · rw [hev]
    exact collectTreasuryFee_nonneg _ _
      (Int.ediv_nonneg (Int.ofNat_nonneg _) (by norm_num))

/-- Witness for C6 at a concrete two-cell path where both cells classify as
road hexes: N = 2, fee 0, net +2, treasury unchanged. -/
theorem C6_drive_step_fee_law_witness :
    (driveStep gridPathXT classifyRoad locOk stAB "A" "f" "t").1
      = DriveStepOutcome.success (driveStepClaimed gridPathXT classifyRoad userA "f" "t")
          (driveStepN gridPathXT classifyRoad userA "f" "t")
          ((driveStepN gridPathXT classifyRoad userA "f" "t" : ℤ))
          ((driveStepN gridPathXT classifyRoad userA "f" "t" : ℤ) / 10)
          ((driveStepN gridPathXT classifyRoad userA "f" "t" : ℤ)
            - (driveStepN gridPathXT classifyRoad userA "f" "t" : ℤ) / 10)
          (userA.balance + ((driveStepN gridPathXT classifyRoad userA "f" "t" : ℤ)
            - (driveStepN gridPathXT classifyRoad userA "f" "t" : ℤ) / 10)) ∧
    findUser (driveStep gridPathXT classifyRoad locOk stAB "A" "f" "t").2 "A"
      = some { userA with
               balance := userA.balance + ((driveStepN gridPathXT classifyRoad userA "f" "t" : ℤ)
                 - (driveStepN gridPathXT classifyRoad userA "f" "t" : ℤ) / 10),
               ownedHexes :=
                 (driveStepClaimed gridPathXT classifyRoad userA "f" "t").foldl
                   setAdd userA.ownedHexes } ∧
    (driveStep gridPathXT classifyRoad locOk stAB "A" "f" "t").2.treasuryGhx
      = stAB.treasuryGhx + (driveStepN gridPathXT classifyRoad userA "f" "t" : ℤ) / 10 :=
  C6_drive_step_fee_law gridPathXT classifyRoad locOk stAB "A" "f" "t" userA
    (by decide) (by decide) (by decide) (by decide) (by decide) (by decide) (by decide)

/-! ## C1: ownership uniqueness -/

theorem mem_foldl_append_owned (l : List User) (acc : List String) (x : String) :
    (x ∈ l.foldl (fun a u => a ++ u.ownedHexes) acc
      ↔ x ∈ acc ∨ ∃ u ∈ l, x ∈ u.ownedHexes) := by
  induction l generalizing acc with
  | nil => simp
  | cons w ws ih =>
      rw [List.foldl_cons, ih]
      simp [List.mem_append, or_assoc]

theorem mem_buildGlobalOwnedHexesSet (st : ServerState) (x : String) :
    x ∈ buildGlobalOwnedHexesSet st ↔ ∃ u ∈ st.users, x ∈ u.ownedHexes := by
  unfold buildGlobalOwnedHexesSet
  rw [mem_foldl_append_owned]
  simp

theorem ids_unique (st : ServerState) (h : IdsNodup st) (a b : User)
    (ha : a ∈ st.users) (hb : b ∈ st.users) (hid : a.id = b.id) : a = b := by
  by_contra hne
  have hsym : Symmetric (fun (u v : User) => u.id ≠ v.id) :=
    fun u v huv e => huv e.symm
  exact List.Pairwise.forall hsym h ha hb hne hid

theorem ownedDisjoint_unique (st : ServerState) (h : OwnedDisjoint st)
    (c : String) (u v : User) (hu : u ∈ st.users) (hv : v ∈ st.users)
    (hcu : c ∈ u.ownedHexes) (hcv : c ∈ v.ownedHexes) : u = v := by
  by_contra hne
  have hsym : Symmetric (fun (u v : User) => ∀ c ∈ u.ownedHexes, c ∉ v.ownedHexes) :=
    fun u v huv x hxv hxu => huv x hxu hxv
  exact List.Pairwise.forall hsym h hu hv hne c hcu hcv

/-- Either a mine call leaves the state unchanged, or it succeeds: the
caller exists, nobody (caller included) owns the cell, and the state update
adds the cell to the caller alone. -/
theorem mine_state_cases (st : ServerState) (uid h3 : String) (g : GpsBody) :
    (mine st uid h3 g).2 = st ∨
    ∃ user, findUser st uid = some user ∧ h3 ∉ user.ownedHexes ∧
      h3 ∉ buildGlobalOwnedHexesSet st ∧
      (mine st uid h3 g).2
        = { st with
            users := updateUser st.users
              { user with
                ownedHexes := setAdd user.ownedHexes h3,
                balance := user.balance + 1 },
            miningEvents := st.miningEvents ++ [(uid, h3)] } := by
  unfold mine
  cases hfu : findUser st uid with
  | none => exact Or.inl rfl
  | some user =>
      dsimp only
      split_ifs with hempty hown hglob hcoast
      · exact Or.inl rfl
      · exact Or.inl rfl
      · exact Or.inl rfl
      · exact Or.inl rfl
      · exact Or.inr ⟨user, rfl, hown, hglob, rfl⟩

/-- updateUser never changes any stored id. -/
theorem updateUser_id (u2 v : User) :
    (if v.id == u2.id then u2 else v).id = v.id := by
  by_cases h : (v.id == u2.id) = true
  · rw [if_pos h]
    exact (beq_iff_eq.mp h).symm
  · rw [if_neg h]

theorem mine_preserves_inv (st : ServerState) (uid h3 : String) (g : GpsBody)
    (h1 : IdsNodup st) (h2 : OwnedDisjoint st) :
    IdsNodup (mine st uid h3 g).2 ∧ OwnedDisjoint (mine st uid h3 g).2 := by
  rcases mine_state_cases st uid h3 g with heq | ⟨user, hfu, hown, hglob, heq⟩
  · rw [heq]; exact ⟨h1, h2⟩
  · rw [heq]
    obtain ⟨humem, huid⟩ := findUser_mem st uid user hfu
    have hfresh : ∀ v ∈ st.users, h3 ∉ v.ownedHexes := by
      intro v hv hv3
      exact hglob ((mem_buildGlobalOwnedHexesSet st h3).mpr ⟨v, hv, hv3⟩)
    have hset : setAdd user.ownedHexes h3 = user.ownedHexes ++ [h3] := if_neg hown
    constructor
    · unfold IdsNodup updateUser
      rw [List.pairwise_map]
      exact h1.imp (fun hab => by
        rw [updateUser_id, updateUser_id]
        exact hab)
    · have h12 := h1.and h2
      unfold OwnedDisjoint updateUser
      rw [List.pairwise_map]
      refine h12.imp_of_mem ?_
      intro a b ha hb hab
      obtain ⟨hneid, hdisj⟩ := hab
      by_cases hA : (a.id == ({ user with
          ownedHexes := setAdd user.ownedHexes h3,
          balance := user.balance + 1 } : User).id) = true
      · have haU : a = user :=
          ids_unique st h1 a user ha humem (beq_iff_eq.mp hA)
        by_cases hB : (b.id == ({ user with
            ownedHexes := setAdd user.ownedHexes h3,
            balance := user.balance + 1 } : User).id) = true
        · have hbU : b = user :=
            ids_unique st h1 b user hb humem (beq_iff_eq.mp hB)
          exact absurd (show a.id = b.id by rw [haU, hbU]) hneid
        · rw [if_pos hA, if_neg hB]
          intro c hc
          rw [hset] at hc
          rcases List.mem_append.mp hc with hcu | hch
          · exact (haU ▸ hdisj) c hcu
          · rw [List.mem_singleton.mp hch]
            exact hfresh b hb
      · rw [if_neg hA]
        by_cases hB : (b.id == ({ user with
            ownedHexes := setAdd user.ownedHexes h3,
            balance := user.balance + 1 } : User).id) = true
        · have hbU : b = user :=
            ids_unique st h1 b user hb humem (beq_iff_eq.mp hB)
          rw [if_pos hB]
          intro c hc
          rw [hset]
          intro hcmem
          rcases List.mem_append.mp hcmem with hcu | hch
          · exact (hbU ▸ hdisj) c hc hcu
          · rw [List.mem_singleton.mp hch] at hc
            exact hfresh a ha hc
        · rw [if_neg hB]
          exact hdisj

theorem runMines_preserves_inv (st : ServerState)
    (calls : List (String × String × GpsBody))
    (h1 : IdsNodup st) (h2 : OwnedDisjoint st) :
    IdsNodup (runMines st calls) ∧ OwnedDisjoint (runMines st calls) := by
  induction calls generalizing st with
  | nil => exact ⟨h1, h2⟩
  | cons call rest ih =>
      have hstep := mine_preserves_inv st call.1 call.2.1 call.2.2 h1 h2
      exact ih (mine st call.1 call.2.1 call.2.2).2 hstep.1 hstep.2

/-- C1: mine calls preserve ownership uniqueness. Starting from a state with
id-keyed users and disjoint owned sets, after any sequence of mine calls
every cell is still in at most one users owned set; and a mine call for a
cell already in a different users owned set fails with OWNED_BY_OTHER
changing no state. -/
theorem C1_mine_ownership_unique (st : ServerState)
    (h1 : IdsNodup st) (h2 : OwnedDisjoint st) :
    (∀ calls : List (String × String × GpsBody),
       ∀ (c : String), ∀ u ∈ (runMines st calls).users, ∀ v ∈ (runMines st calls).users,
         c ∈ u.ownedHexes → c ∈ v.ownedHexes → u = v) ∧
    (∀ (uid h3 : String) (g : GpsBody) (user other : User),
       findUser st uid = some user → other ∈ st.users → other.id ≠ uid →
       h3 ∈ other.ownedHexes → h3 ≠ "" →
       mine st uid h3 g = (.fail .OWNED_BY_OTHER user.balance false, st)) := by
  constructor
  · intro calls c u hu v hv hcu hcv
    have hinv := runMines_preserves_inv st calls h1 h2
    exact ownedDisjoint_unique (runMines st calls) hinv.2 c u v hu hv hcu hcv
  · intro uid h3 g user other hfu hother hoid hh3 hne
    obtain ⟨humem, huid⟩ := findUser_mem st uid user hfu
    have hneq : other ≠ user := fun he => hoid (he ▸ huid)
    have hnotown : h3 ∉ user.ownedHexes := by
      intro hcontra
      exact hneq (ownedDisjoint_unique st h2 h3 other user hother humem hh3 hcontra)
    have hglob : h3 ∈ buildGlobalOwnedHexesSet st :=
      (mem_buildGlobalOwnedHexesSet st h3).mpr ⟨other, hother, hh3⟩
    unfold mine
    rw [hfu]
    simp [hne, hnotown, hglob]

/-- Witness for C1 at the concrete two-user state: the invariants hold and
user A mining user Bs cell fails with OWNED_BY_OTHER leaving the state
unchanged. -/
theorem C1_mine_ownership_unique_witness :
    IdsNodup stAB ∧ OwnedDisjoint stAB ∧
    mine stAB "A" "cellX" {} = (.fail .OWNED_BY_OTHER userA.balance false, stAB) := by
  have h1 : IdsNodup stAB := by
    unfold IdsNodup stAB userA userB
    decide
  have h2 : OwnedDisjoint stAB := by
    unfold OwnedDisjoint stAB userA userB
    decide
  refine ⟨h1, h2, ?_⟩
  exact (C1_mine_ownership_unique stAB h1 h2).2 "A" "cellX" {} userA userB
    (by decide) (by decide) (by decide) (by decide) (by decide)

end WorldHexMiner
